import Mathlib

/-!
Verification of `scripts/generate-favicons.py`.

The script is a straight-line batch procedure: load `public/logo.png`,
normalize it to RGBA, composite it over the theme background color,
emit five resized PNGs, one 32×32 ICO, and a fixed-content
`site.webmanifest`, all into `public/`.

The embedding below mirrors the script.  An image is represented by its
mode tag, its dimensions, and its pixel content as already decoded to
RGBA quadruples (Pillow's `convert('RGBA')` preserves the visual
content, so mode conversion only retags the image here).  File writes
are recorded as an ordered list of (path, content) pairs; paths are
strings relative to the project root.
-/

namespace FaviconGen

/-- Pillow pixel modes distinguished by the script (lines 39–45):
`RGBA`, `P` (palette), `LA`, `L`, and anything else (`RGB`, `CMYK`, …). -/
inductive Mode where
  | RGBA
  | RGB
  | P
  | LA
  | L
  | CMYK
  | I
deriving DecidableEq, Repr

/-- One pixel, as RGBA channel values (each intended to lie in 0..255). -/
structure Pix where
  r : Nat
  g : Nat
  b : Nat
  a : Nat
deriving DecidableEq, Repr

/-- A decoded in-memory bitmap: mode tag, dimensions, and pixel content
given as the RGBA interpretation of each coordinate. -/
structure Image where
  mode : Mode
  width : Nat
  height : Nat
  px : Nat → Nat → Pix

/-- All channel values of a pixel are bytes. -/
def Pix.Valid (p : Pix) : Prop :=
  p.r ≤ 255 ∧ p.g ≤ 255 ∧ p.b ≤ 255 ∧ p.a ≤ 255

instance (p : Pix) : Decidable p.Valid := by
  unfold Pix.Valid; infer_instance

/-- `img.convert('RGBA')`: retags the image as RGBA.  Pixel content is
already stored in RGBA form, so only the mode changes. -/
def Image.convertRGBA (img : Image) : Image :=
  { img with mode := Mode.RGBA }

/-- `img.copy()` (line 55). -/
def Image.copy (img : Image) : Image := img

/-- `img.resize((w, h), Image.Resampling.LANCZOS)` (lines 61 and 69):
the result has the requested dimensions and the same mode.  The Lanczos
kernel is abstracted to coordinate resampling; no claim concerns the
interpolated pixel values of a resized image. -/
def Image.resize (img : Image) (w h : Nat) : Image :=
  { mode := img.mode
    width := w
    height := h
    px := fun x y => img.px (x * img.width / w) (y * img.height / h) }

/-- `img.split()[-1]` on an RGBA image (line 52): the alpha band. -/
def Image.alphaChannel (img : Image) (x y : Nat) : Nat :=
  (img.px x y).a

/-- Lines 38–45: ensure the image is in RGBA format.  Every branch of
the dispatch calls `convert('RGBA')`; an RGBA input is left untouched. -/
def ensureRGBA (img_original : Image) : Image :=
  if img_original.mode ≠ Mode.RGBA then
    if img_original.mode = Mode.P then
      img_original.convertRGBA
    else if img_original.mode = Mode.LA ∨ img_original.mode = Mode.L then
      img_original.convertRGBA
    else
      img_original.convertRGBA
  else
    img_original

/-- Line 48: `background_color_rgba = (6, 57, 64, 255)`. -/
def background_color_rgba : Pix := ⟨6, 57, 64, 255⟩

/-- Pillow's MULDIV255 macro, the rounding division by 255 used by
`paste` when blending through an `L` mask:
`((x + 128) + ((x + 128) >> 8)) >> 8`. -/
def div255 (x : Nat) : Nat :=
  (x + 128 + (x + 128) / 256) / 256

/-- Per-channel blend of `paste(img, mask)`:
`BLEND(mask, in1, in2) = MULDIV255(in1, 255 - mask) + MULDIV255(in2, mask)`. -/
def blendChannel (bg src a : Nat) : Nat :=
  div255 (bg * (255 - a)) + div255 (src * a)

/-- Lines 51–52: `Image.new('RGB', img_original.size, background_color_rgba[:3])`
followed by `img_rgb.paste(img_original, mask=img_original.split()[-1])`:
an RGB canvas of the source's dimensions painted with the background
color, with the source composited over it using its alpha band as mask. -/
def makeImgRgb (img_original : Image) : Image :=
  { mode := Mode.RGB
    width := img_original.width
    height := img_original.height
    px := fun x y =>
      let s := img_original.px x y
      let a := img_original.alphaChannel x y
      ⟨blendChannel background_color_rgba.r s.r a,
       blendChannel background_color_rgba.g s.g a,
       blendChannel background_color_rgba.b s.b a,
       255⟩ }

/-- Lines 19–25: the favicon size table, in declaration order
(Python dicts iterate in insertion order). -/
def FAVICON_SIZES : List (String × Nat) :=
  [("favicon-16x16.png", 16),
   ("favicon-32x32.png", 32),
   ("apple-touch-icon.png", 180),
   ("android-chrome-192x192.png", 192),
   ("android-chrome-512x512.png", 512)]

/-- The content of a written file.  `Content.ico img` is the legacy
icon file produced by `img.save(path, format='ICO')` (lines 80–81):
the file is identified by the bitmap handed to the encoder, and the
frames the encoder actually embeds in the file are `icoFrames img`
below — despite the script's "simple single-size ICO" comment, the
call passes no `sizes` argument, so the encoder applies its default
size list. -/
inductive Content where
  | png : Image → Content
  | ico : Image → Content
  | text : String → Content

/-- Pillow's default ICO size list, used by `save(format='ICO')` when
no `sizes` argument is given. -/
def ICO_DEFAULT_SIZES : List (Nat × Nat) :=
  [(16, 16), (24, 24), (32, 32), (48, 48), (64, 64), (128, 128), (256, 256)]

/-- The frames the ICO encoder (`IcoImagePlugin._save`, library code
outside this repository) embeds in the file saved from `img`: the
default size list filtered to the sizes that fit within the saved
image (and within 256), one frame per remaining size, the saved image
proportionally scaled (`thumbnail`) to it.  The script always saves a
square 32×32 image, on which proportional scaling to a square target
coincides with the exact resize used here. -/
def icoFrames (img : Image) : List Image :=
  (ICO_DEFAULT_SIZES.filter fun s =>
      decide (s.1 ≤ img.width ∧ s.2 ≤ img.height ∧ s.1 ≤ 256 ∧ s.2 ≤ 256)).map
    fun s => img.resize s.1 s.2

/-- Line 14: `PUBLIC_DIR = PROJECT_ROOT / "public"`, relative to the
project root. -/
def PUBLIC_DIR : String := "public"

/-- Line 15: `APP_DIR = PROJECT_ROOT / "app"`, relative to the project
root. -/
def APP_DIR : String := "app"

/-- Path join `dir / name`. -/
def joinPath (d f : String) : String := d ++ "/" ++ f

/-- Line 16: `LOGO_PATH = PUBLIC_DIR / "logo.png"`. -/
def LOGO_PATH : String := joinPath PUBLIC_DIR "logo.png"

/-- `PUBLIC_DIR / filename` as used at lines 60, 78 and 108. -/
def pubPath (f : String) : String := joinPath PUBLIC_DIR f

/-- Lines 86–107: the manifest text, exactly as the script writes it
(braces appear as \x7b / \x7d escapes). -/
def manifest_content : String :=
  "\x7b\n  \"name\": \"Zendesk App Icon Generator\",\n  \"short_name\": \"ZDK Icon Gen\",\n  \"description\": \"Generate compliant Zendesk app icon bundles\",\n  \"icons\": [\n    \x7b\n      \"src\": \"/android-chrome-192x192.png\",\n      \"sizes\": \"192x192\",\n      \"type\": \"image/png\"\n    \x7d,\n    \x7b\n      \"src\": \"/android-chrome-512x512.png\",\n      \"sizes\": \"512x512\",\n      \"type\": \"image/png\"\n    \x7d\n  ],\n  \"theme_color\": \"#063940\",\n  \"background_color\": \"#063940\",\n  \"display\": \"standalone\",\n  \"start_url\": \"/\"\n\x7d\n"

/-- The byte-exact manifest literal displayed in section 6 of the
specification, for comparison with `manifest_content`. -/
def spec6_manifest : String :=
  "\x7b\n  \"name\": \"Zendesk App Icon Generator\",\n  \"short_name\": \"ZDK Icon Gen\",\n  \"description\": \"Generate compliant Zendesk app icon bundles\",\n  \"icons\": [\n    \x7b\"src\": \"/android-chrome-192x192.png\", \"sizes\": \"192x192\", \"type\": \"image/png\"\x7d,\n    \x7b\"src\": \"/android-chrome-512x512.png\", \"sizes\": \"512x512\", \"type\": \"image/png\"\x7d\n  ],\n  \"theme_color\": \"#063940\",\n  \"background_color\": \"#063940\",\n  \"display\": \"standalone\",\n  \"start_url\": \"/\"\n\x7d"

/-- `Image.open` (line 36) on the bytes found at the source path: image
content decodes to its bitmap, non-image content raises
`UnidentifiedImageError`. -/
def Image.open' : Content → Except String Image
  | Content.png img => Except.ok img
  | Content.ico img => Except.ok img
  | Content.text _ => Except.error "cannot identify image file"

/-- Result of one call of `generate_favicons`: the boolean it returns,
the files it wrote in order, and the lines it printed. -/
structure RunOut where
  ok : Bool
  writes : List (String × Content)
  msgs : List String

/-- Lines 27–114, `generate_favicons()`.  The argument is the content
found at `LOGO_PATH` (`none` when the file does not exist).  A raised
exception (from `Image.open` on undecodable bytes) is an `error`
result; otherwise the returned boolean, the ordered writes and the
printed lines are recorded. -/
def generate_favicons (src : Option Content) : Except String RunOut :=
  match src with
  | none =>
      Except.ok
        { ok := false
          writes := []
          msgs := ["Error: " ++ LOGO_PATH ++ " not found!"] }
  | some c =>
      match Image.open' c with
      | Except.error e => Except.error e
      | Except.ok img0 =>
          let img_original := ensureRGBA img0
          let img_rgb := makeImgRgb img_original
          let img_rgba := img_original.copy
          let pngWrites := FAVICON_SIZES.map fun fs =>
            (pubPath fs.1, Content.png (img_rgb.resize fs.2 fs.2))
          let pngMsgs := FAVICON_SIZES.map fun fs =>
            "  ✓ Created " ++ fs.1 ++ " (" ++ toString fs.2 ++ "x" ++ toString fs.2 ++ ")"
          let ico_size := 32
          let ico_img0 := img_rgba.resize ico_size ico_size
          let ico_img :=
            if ico_img0.mode ≠ Mode.RGBA then ico_img0.convertRGBA else ico_img0
          let ico_path_public := pubPath "favicon.ico"
          let manifest_path := pubPath "site.webmanifest"
          Except.ok
            { ok := true
              writes :=
                pngWrites ++
                  [(ico_path_public, Content.ico ico_img),
                   (manifest_path, Content.text manifest_content)]
              msgs :=
                ["Loading source image: " ++ LOGO_PATH,
                 "\nGenerating PNG favicons..."] ++
                  pngMsgs ++
                  ["\nGenerating favicon.ico...",
                   "  ✓ Created " ++ ico_path_public ++ " (" ++ toString ico_size ++
                     "x" ++ toString ico_size ++ ")",
                   "\nGenerating site.webmanifest...",
                   "  ✓ Created site.webmanifest",
                   "\n✅ All favicon files generated successfully!"] }

/-- Lines 116–123, the `__main__` block: `generate_favicons()` is
called with its return value discarded; only an escaping exception
reaches the handler that calls `exit(1)`.  The value is the process
exit code. -/
def mainExit (src : Option Content) : Nat :=
  match generate_favicons src with
  | Except.ok _ => 0
  | Except.error _ => 1

/-- A filesystem: contents by path. -/
def FS : Type := String → Option Content

/-- Writing one file, overwriting any previous content at that path. -/
def fsWrite (fs : FS) (p : String) (c : Content) : FS :=
  fun q => if q = p then some c else fs q

/-- Applying a run's writes to the filesystem, in order. -/
def applyWrites (fs : FS) (ws : List (String × Content)) : FS :=
  ws.foldl (fun g w => fsWrite g w.1 w.2) fs

/-- One invocation of the script against a filesystem: the source is
read at `LOGO_PATH`; on an exception the process dies before any write
(decoding precedes the first write in the script), on a normal return
the recorded writes are applied. -/
def runOnFS (fs : FS) : FS :=
  match generate_favicons (fs LOGO_PATH) with
  | Except.ok out => applyWrites fs out.writes
  | Except.error _ => fs

/-- Pixel dimensions recovered by decoding a written file (0×0 for a
text file, which holds no bitmap). -/
def contentSize : Content → Nat × Nat
  | Content.png i => (i.width, i.height)
  | Content.ico i => (i.width, i.height)
  | Content.text _ => (0, 0)

/-- The seven output paths of a successful run. -/
def outputPaths : List String :=
  [pubPath "favicon-16x16.png",
   pubPath "favicon-32x32.png",
   pubPath "apple-touch-icon.png",
   pubPath "android-chrome-192x192.png",
   pubPath "android-chrome-512x512.png",
   pubPath "favicon.ico",
   pubPath "site.webmanifest"]

/-- A small concrete RGBA test image (constant half-transparent pixel),
used to instantiate theorems with hypotheses. -/
def testImg : Image :=
  { mode := Mode.RGBA, width := 2, height := 2, px := fun _ _ => ⟨10, 20, 30, 128⟩ }

/-- A concrete filesystem holding only the logo. -/
def testFS : FS :=
  fun p => if p = LOGO_PATH then some (Content.png testImg) else none

/-! Helper lemmas. -/

theorem ensureRGBA_mode_eq (img : Image) : (ensureRGBA img).mode = Mode.RGBA := by
  unfold ensureRGBA Image.convertRGBA
  split_ifs <;> simp_all

theorem ensureRGBA_of_rgba (img : Image) (h : img.mode = Mode.RGBA) :
    ensureRGBA img = img := by
  unfold ensureRGBA
  simp [h]

theorem div255_round (x : Nat) (hx : x ≤ 65025) :
    255 * div255 x ≤ x + 127 ∧ x ≤ 255 * div255 x + 127 := by
  unfold div255
  omega

theorem blendChannel_full (bg s : Nat) (hs : s ≤ 255) :
    blendChannel bg s 255 = s := by
  unfold blendChannel div255
  simp [Nat.sub_self]
  omega

theorem blendChannel_zero (bg s : Nat) (hbg : bg ≤ 255) :
    blendChannel bg s 0 = bg := by
  unfold blendChannel div255
  omega

/-- The blended channel is within one rounding unit of the exact
linear interpolation `(src*a + bg*(255-a)) / 255`. -/
def LinearBlendApprox (bg src a out : Nat) : Prop :=
  src * a + bg * (255 - a) ≤ 255 * out + 254 ∧ 255 * out ≤ src * a + bg * (255 - a) + 254

theorem blendChannel_linear (bg s a : Nat)
    (hbg : bg ≤ 255) (hs : s ≤ 255) (ha : a ≤ 255) :
    LinearBlendApprox bg s a (blendChannel bg s a) := by
  have hx1 : bg * (255 - a) ≤ 65025 := Nat.mul_le_mul hbg (Nat.sub_le 255 a)
  have hx2 : s * a ≤ 65025 := Nat.mul_le_mul hs ha
  have h1 := div255_round (bg * (255 - a)) hx1
  have h2 := div255_round (s * a) hx2
  unfold blendChannel
  constructor <;> omega

theorem makeImgRgb_px (img : Image) (x y : Nat) :
    (makeImgRgb img).px x y =
      ⟨blendChannel 6 (img.px x y).r (img.px x y).a,
       blendChannel 57 (img.px x y).g (img.px x y).a,
       blendChannel 64 (img.px x y).b (img.px x y).a,
       255⟩ := rfl

/-! Theorems for the claims. -/

/-- C7: every decoded source image is normalized to truecolor-with-alpha:
whatever the input mode (RGBA kept, P / LA / L / anything else
converted), after `ensureRGBA` the mode is always RGBA. -/
theorem normalization_always_rgba (img : Image) :
    (ensureRGBA img).mode = Mode.RGBA :=
  ensureRGBA_mode_eq img

/-- C9: the alpha variant is a copy of the normalized RGBA image and
resizing preserves the mode, so the image reaching the mode re-check
before the ICO save is already RGBA and the guarded conversion branch
is never taken. -/
theorem ico_recheck_unreachable (img0 : Image) :
    (((ensureRGBA img0).copy).resize 32 32).mode = Mode.RGBA ∧
    (if (((ensureRGBA img0).copy).resize 32 32).mode ≠ Mode.RGBA then
        (((ensureRGBA img0).copy).resize 32 32).convertRGBA
      else (((ensureRGBA img0).copy).resize 32 32)) =
      ((ensureRGBA img0).copy).resize 32 32 := by
  have hmode : (((ensureRGBA img0).copy).resize 32 32).mode = Mode.RGBA := by
    show (ensureRGBA img0).mode = Mode.RGBA
    exact ensureRGBA_mode_eq img0
  exact ⟨hmode, by simp [hmode]⟩

/-- C4: when the source path does not exist the procedure prints the
error line, returns `False`, performs no further step and writes
nothing, and the filesystem is left unchanged. -/
theorem missing_source_behavior :
    generate_favicons none =
      Except.ok
        { ok := false
          writes := []
          msgs := ["Error: " ++ LOGO_PATH ++ " not found!"] } ∧
    ∀ fs : FS, fs LOGO_PATH = none → runOnFS fs = fs := by
  constructor
  · rfl
  · intro fs h
    unfold runOnFS
    rw [h]
    rfl

/-- Witness for C4 on a concrete filesystem without the logo. -/
theorem missing_source_behavior_witness :
    runOnFS (fun _ => none) = (fun _ => none) :=
  missing_source_behavior.2 (fun _ => none) rfl

/-- C1 is false as stated: the `__main__` block discards the boolean
returned by `generate_favicons`, so a missing source file — a failure,
reported and signalled by a `False` return — still lets the process
terminate normally with exit code 0. -/
theorem main_ignores_missing_source_failure :
    mainExit none = 0 ∧
    generate_favicons none =
      Except.ok
        { ok := false
          writes := []
          msgs := ["Error: " ++ LOGO_PATH ++ " not found!"] } :=
  ⟨rfl, rfl⟩

/-- C1 (amended): the exit code is 0 on success and non-zero exactly on
an unhandled processing error (an exception reaching the top-level
handler); a missing source file also exits with code 0, its failure
being signalled only by the discarded boolean return. -/
theorem exit_code_semantics :
    (∀ img0 : Image, mainExit (some (Content.png img0)) = 0) ∧
    (∀ src, (∃ e, generate_favicons src = Except.error e) → mainExit src = 1) ∧
    mainExit none = 0 := by
  refine ⟨fun img0 => rfl, ?_, rfl⟩
  rintro src ⟨e, he⟩
  unfold mainExit
  rw [he]

/-- Witness for C1 (amended) on undecodable source bytes. -/
theorem exit_code_semantics_witness :
    mainExit (some (Content.text "not an image")) = 1 :=
  exit_code_semantics.2.1 (some (Content.text "not an image"))
    ⟨"cannot identify image file", rfl⟩

/-- C2 is false as stated: the manifest string the script writes is not
byte-for-byte the section 6 literal (the script expands each icon
object over several lines and ends with a trailing newline). -/
theorem manifest_differs_from_spec6_literal :
    manifest_content ≠ spec6_manifest := by
  decide

/-- C2 (amended): on every successful run, independent of the source
image's content, `site.webmanifest` is written with the fixed constant
string `manifest_content` — the same JSON document as section 6, but
with each icon object expanded over several lines and a trailing
newline. -/
theorem manifest_write_constant (img0 : Image) :
    ∃ out, generate_favicons (some (Content.png img0)) = Except.ok out ∧
      out.writes.getLast? =
        some (pubPath "site.webmanifest", Content.text manifest_content) :=
  ⟨_, rfl, rfl⟩

/-- C5: the opaque variant composites the normalized source over the
fixed background (6, 57, 64) using the source's alpha as mask: alpha
255 reproduces the source color, alpha 0 the background color, and any
alpha yields the linear blend (up to the encoder's per-term rounding). -/
theorem opaque_variant_compositing (img : Image) (x y : Nat)
    (h : ((ensureRGBA img).px x y).Valid) :
    (((ensureRGBA img).px x y).a = 255 →
      (makeImgRgb (ensureRGBA img)).px x y =
        ⟨((ensureRGBA img).px x y).r, ((ensureRGBA img).px x y).g,
         ((ensureRGBA img).px x y).b, 255⟩) ∧
    (((ensureRGBA img).px x y).a = 0 →
      (makeImgRgb (ensureRGBA img)).px x y = ⟨6, 57, 64, 255⟩) ∧
    LinearBlendApprox 6 ((ensureRGBA img).px x y).r ((ensureRGBA img).px x y).a
      ((makeImgRgb (ensureRGBA img)).px x y).r ∧
    LinearBlendApprox 57 ((ensureRGBA img).px x y).g ((ensureRGBA img).px x y).a
      ((makeImgRgb (ensureRGBA img)).px x y).g ∧
    LinearBlendApprox 64 ((ensureRGBA img).px x y).b ((ensureRGBA img).px x y).a
      ((makeImgRgb (ensureRGBA img)).px x y).b := by
  obtain ⟨hr, hg, hb, ha⟩ := h
  rw [makeImgRgb_px]
  refine ⟨?_, ?_, ?_, ?_, ?_⟩
  · intro h255
    rw [h255, blendChannel_full 6 _ hr, blendChannel_full 57 _ hg,
      blendChannel_full 64 _ hb]
  · intro h0
    rw [h0, blendChannel_zero 6 _ (by norm_num), blendChannel_zero 57 _ (by norm_num),
      blendChannel_zero 64 _ (by norm_num)]
  · exact blendChannel_linear 6 _ _ (by norm_num) hr ha
  · exact blendChannel_linear 57 _ _ (by norm_num) hg ha
  · exact blendChannel_linear 64 _ _ (by norm_num) hb ha

/-- Witness for C5 at a concrete image and coordinate. -/
theorem opaque_variant_compositing_witness :
    (((ensureRGBA testImg).px 0 0).a = 255 →
      (makeImgRgb (ensureRGBA testImg)).px 0 0 =
        ⟨((ensureRGBA testImg).px 0 0).r, ((ensureRGBA testImg).px 0 0).g,
         ((ensureRGBA testImg).px 0 0).b, 255⟩) ∧
    (((ensureRGBA testImg).px 0 0).a = 0 →
      (makeImgRgb (ensureRGBA testImg)).px 0 0 = ⟨6, 57, 64, 255⟩) ∧
    LinearBlendApprox 6 ((ensureRGBA testImg).px 0 0).r ((ensureRGBA testImg).px 0 0).a
      ((makeImgRgb (ensureRGBA testImg)).px 0 0).r ∧
    LinearBlendApprox 57 ((ensureRGBA testImg).px 0 0).g ((ensureRGBA testImg).px 0 0).a
      ((makeImgRgb (ensureRGBA testImg)).px 0 0).g ∧
    LinearBlendApprox 64 ((ensureRGBA testImg).px 0 0).b ((ensureRGBA testImg).px 0 0).a
      ((makeImgRgb (ensureRGBA testImg)).px 0 0).b :=
  opaque_variant_compositing testImg 0 0 (by decide)

/-- C6: a successful run emits, as its first five writes and in the
table's declaration order, the opaque variant resized to each table
size and saved as a PNG under the table's filename in `public/`, with
pixel dimensions 16, 32, 180, 192 and 512. -/
theorem png_emission_loop (img0 : Image) :
    ∃ out, generate_favicons (some (Content.png img0)) = Except.ok out ∧
      out.writes.take 5 =
        FAVICON_SIZES.map (fun fs =>
          (pubPath fs.1, Content.png ((makeImgRgb (ensureRGBA img0)).resize fs.2 fs.2))) ∧
      (out.writes.take 5).map Prod.fst =
        [pubPath "favicon-16x16.png", pubPath "favicon-32x32.png",
         pubPath "apple-touch-icon.png", pubPath "android-chrome-192x192.png",
         pubPath "android-chrome-512x512.png"] ∧
      (out.writes.take 5).map (fun w => contentSize w.2) =
        [(16, 16), (32, 32), (180, 180), (192, 192), (512, 512)] :=
  ⟨_, rfl, rfl, rfl, rfl⟩

/-- The ordered writes of a successful run on decoded image `img0`, in
closed form (checked against the script by `generate_favicons_png_ok`). -/
def successWrites (img0 : Image) : List (String × Content) :=
  (FAVICON_SIZES.map fun fs =>
    (pubPath fs.1, Content.png ((makeImgRgb (ensureRGBA img0)).resize fs.2 fs.2))) ++
    [(pubPath "favicon.ico",
        Content.ico
          (if (((ensureRGBA img0).copy).resize 32 32).mode ≠ Mode.RGBA then
            (((ensureRGBA img0).copy).resize 32 32).convertRGBA
          else (((ensureRGBA img0).copy).resize 32 32))),
     (pubPath "site.webmanifest", Content.text manifest_content)]

/-- The progress lines of a successful run, in closed form. -/
def successMsgs : List String :=
  ["Loading source image: " ++ LOGO_PATH,
   "\nGenerating PNG favicons..."] ++
    (FAVICON_SIZES.map fun fs =>
      "  ✓ Created " ++ fs.1 ++ " (" ++ toString fs.2 ++ "x" ++ toString fs.2 ++ ")") ++
    ["\nGenerating favicon.ico...",
     "  ✓ Created " ++ pubPath "favicon.ico" ++ " (" ++ toString 32 ++ "x" ++ toString 32 ++ ")",
     "\nGenerating site.webmanifest...",
     "  ✓ Created site.webmanifest",
     "\n✅ All favicon files generated successfully!"]

/-- A successful run's whole observable outcome, in closed form. -/
def successOut (img0 : Image) : RunOut :=
  { ok := true, writes := successWrites img0, msgs := successMsgs }

theorem generate_favicons_png_ok (img0 : Image) :
    generate_favicons (some (Content.png img0)) = Except.ok (successOut img0) := rfl

theorem generate_favicons_ico_ok (img0 : Image) :
    generate_favicons (some (Content.ico img0)) = Except.ok (successOut img0) := rfl

/-- C3 fails as stated: on a concrete run the file written at
`public/favicon.ico` is saved from the 32×32 RGBA variant, but the
encoder — called with no `sizes` argument — embeds the three
default-size frames 16×16, 24×24 and 32×32: a multi-resolution
bundle, not a single embedded image. -/
theorem favicon_ico_not_single_image :
    generate_favicons (some (Content.png testImg)) = Except.ok (successOut testImg) ∧
    (successOut testImg).writes[5]? =
      some (pubPath "favicon.ico",
        Content.ico (((ensureRGBA testImg).copy).resize 32 32)) ∧
    (icoFrames (((ensureRGBA testImg).copy).resize 32 32)).map
        (fun f => (f.width, f.height)) = [(16, 16), (24, 24), (32, 32)] ∧
    (icoFrames (((ensureRGBA testImg).copy).resize 32 32)).length ≠ 1 :=
  ⟨rfl, rfl, rfl, by decide⟩

/-- C3 (amended): the legacy icon written at `public/favicon.ico` is
saved from the alpha-preserving variant (the copy of the normalized
source) resized to 32×32, still in RGBA mode; since the script passes
no `sizes` argument, the encoded file is a multi-resolution bundle of
the three default sizes that fit — 16×16, 24×24 and 32×32 frames, each
derived from that RGBA image — rather than a single embedded image. -/
theorem favicon_ico_rgba_32_default_frames (img0 : Image) :
    ∃ out, generate_favicons (some (Content.png img0)) = Except.ok out ∧
      out.writes[5]? =
        some (pubPath "favicon.ico",
          Content.ico (((ensureRGBA img0).copy).resize 32 32)) ∧
      (((ensureRGBA img0).copy).resize 32 32).mode = Mode.RGBA ∧
      (((ensureRGBA img0).copy).resize 32 32).width = 32 ∧
      (((ensureRGBA img0).copy).resize 32 32).height = 32 ∧
      (icoFrames (((ensureRGBA img0).copy).resize 32 32)).map
          (fun f => (f.width, f.height)) = [(16, 16), (24, 24), (32, 32)] ∧
      ∀ f ∈ icoFrames (((ensureRGBA img0).copy).resize 32 32), f.mode = Mode.RGBA := by
  have hmode : (((ensureRGBA img0).copy).resize 32 32).mode = Mode.RGBA :=
    ensureRGBA_mode_eq img0
  have hif : (if (((ensureRGBA img0).copy).resize 32 32).mode ≠ Mode.RGBA
      then (((ensureRGBA img0).copy).resize 32 32).convertRGBA
      else (((ensureRGBA img0).copy).resize 32 32)) =
      ((ensureRGBA img0).copy).resize 32 32 := by
    simp [hmode]
  refine ⟨_, rfl, ?_, hmode, rfl, rfl, rfl, ?_⟩
  · exact congrArg (fun i => some (pubPath "favicon.ico", Content.ico i)) hif
  · intro f hf
    have hf' : f ∈
        [(((ensureRGBA img0).copy).resize 32 32).resize 16 16,
         (((ensureRGBA img0).copy).resize 32 32).resize 24 24,
         (((ensureRGBA img0).copy).resize 32 32).resize 32 32] := hf
    rcases List.mem_cons.mp hf' with h | h'
    · subst h; exact hmode
    · rcases List.mem_cons.mp h' with h | h''
      · subst h; exact hmode
      · rcases List.mem_cons.mp h'' with h | h3
        · subst h; exact hmode
        · exact absurd h3 (List.not_mem_nil f)

/-- Witness for C3 (amended): the 16×16 frame of the concrete run's
ICO file is among the encoder's frames and is in RGBA mode. -/
theorem favicon_ico_rgba_32_default_frames_witness :
    ((((ensureRGBA testImg).copy).resize 32 32).resize 16 16).mode = Mode.RGBA := by
  obtain ⟨out, -, -, -, -, -, -, hframes⟩ := favicon_ico_rgba_32_default_frames testImg
  exact hframes _ (List.mem_cons_self _ _)

theorem successWrites_paths (img0 : Image) :
    (successWrites img0).map Prod.fst = outputPaths := rfl

theorem logo_not_in_outputs : LOGO_PATH ∉ outputPaths := by decide

theorem logo_not_written (img0 : Image) :
    ∀ w ∈ successWrites img0, LOGO_PATH ≠ w.1 := by
  intro w hw heq
  apply logo_not_in_outputs
  have hmem := List.mem_map_of_mem Prod.fst hw
  rw [successWrites_paths] at hmem
  rw [heq]
  exact hmem

/-- The last content that `ws` writes to `p`, starting from `acc`. -/
def lastWriteFrom (acc : Option Content) (ws : List (String × Content)) (p : String) :
    Option Content :=
  match ws with
  | [] => acc
  | w :: ws' => lastWriteFrom (if p = w.1 then some w.2 else acc) ws' p

theorem applyWrites_apply (ws : List (String × Content)) :
    ∀ (fs : FS) (p : String), applyWrites fs ws p = lastWriteFrom (fs p) ws p := by
  induction ws with
  | nil => intro fs p; rfl
  | cons w ws ih =>
      intro fs p
      rw [show applyWrites fs (w :: ws) = applyWrites (fsWrite fs w.1 w.2) ws from rfl, ih]
      rfl

theorem lastWriteFrom_of_not_mem (p : String) :
    ∀ (ws : List (String × Content)) (acc : Option Content),
      (∀ w ∈ ws, p ≠ w.1) → lastWriteFrom acc ws p = acc := by
  intro ws
  induction ws with
  | nil => intro acc _; rfl
  | cons w ws ih =>
      intro acc h
      show lastWriteFrom (if p = w.1 then some w.2 else acc) ws p = acc
      rw [if_neg (h w (List.mem_cons_self w ws))]
      exact ih acc fun w' hw' => h w' (List.mem_cons_of_mem w hw')

theorem lastWriteFrom_of_mem (p : String) :
    ∀ ws : List (String × Content), (∃ w ∈ ws, p = w.1) →
      ∀ acc acc', lastWriteFrom acc ws p = lastWriteFrom acc' ws p := by
  intro ws
  induction ws with
  | nil => rintro ⟨w, hw, _⟩; exact absurd hw (List.not_mem_nil w)
  | cons w ws ih =>
      rintro ⟨v, hv, hp⟩ acc acc'
      show lastWriteFrom (if p = w.1 then some w.2 else acc) ws p =
        lastWriteFrom (if p = w.1 then some w.2 else acc') ws p
      rcases List.mem_cons.mp hv with h1 | h1
      · subst h1
        simp only [if_pos hp]
      · exact ih ⟨v, h1, hp⟩ _ _

theorem lastWriteFrom_idem (ws : List (String × Content)) (p : String) (acc : Option Content) :
    lastWriteFrom (lastWriteFrom acc ws p) ws p = lastWriteFrom acc ws p := by
  by_cases h : ∃ w ∈ ws, p = w.1
  · exact lastWriteFrom_of_mem p ws h _ acc
  · have h' : ∀ w ∈ ws, p ≠ w.1 := by
      intro w hw
      exact fun heq => h ⟨w, hw, heq⟩
    have h1 := lastWriteFrom_of_not_mem p ws acc h'
    rw [h1]
    exact h1

theorem applyWrites_idem (fs : FS) (ws : List (String × Content)) :
    applyWrites (applyWrites fs ws) ws = applyWrites fs ws := by
  funext p
  rw [applyWrites_apply, applyWrites_apply ws fs p]
  exact lastWriteFrom_idem ws p (fs p)

theorem applyWrites_unchanged (fs : FS) (ws : List (String × Content)) (p : String)
    (h : ∀ w ∈ ws, p ≠ w.1) : applyWrites fs ws p = fs p := by
  rw [applyWrites_apply]
  exact lastWriteFrom_of_not_mem p ws (fs p) h

theorem runOnFS_eq (fs : FS) (img0 : Image)
    (h : fs LOGO_PATH = some (Content.png img0)) :
    runOnFS fs = applyWrites fs (successWrites img0) := by
  unfold runOnFS
  rw [h, generate_favicons_png_ok]
  rfl

/-- C8: running the script twice against the same filesystem (holding
an unchanged decodable source image) leaves the same state as running
it once: the second run reads back the untouched logo and overwrites
every output with identical content. -/
theorem run_idempotent (fs : FS) (img0 : Image)
    (h : fs LOGO_PATH = some (Content.png img0)) :
    runOnFS (runOnFS fs) = runOnFS fs := by
  have h1 := runOnFS_eq fs img0 h
  have h2 : (applyWrites fs (successWrites img0)) LOGO_PATH = some (Content.png img0) := by
    rw [applyWrites_unchanged fs (successWrites img0) LOGO_PATH (logo_not_written img0), h]
  rw [h1, runOnFS_eq (applyWrites fs (successWrites img0)) img0 h2]
  exact applyWrites_idem fs (successWrites img0)

/-- Witness for C8 on a concrete filesystem and image. -/
theorem run_idempotent_witness :
    runOnFS (runOnFS testFS) = runOnFS testFS :=
  run_idempotent testFS testImg (by simp [testFS])

theorem pub_ne_app (g f : String) : pubPath g ≠ joinPath APP_DIR f := by
  intro heq
  have hd := congrArg String.data heq
  rw [show pubPath g = "public/" ++ g from rfl,
    show joinPath APP_DIR f = "app/" ++ f from rfl,
    String.data_append, String.data_append,
    show "public/".data = ['p', 'u', 'b', 'l', 'i', 'c', '/'] from rfl,
    show "app/".data = ['a', 'p', 'p', '/'] from rfl] at hd
  simp at hd

/-- C10: whatever the source, every file a run writes is one of the
seven fixed paths in the public directory, and no write lands in the
app directory. -/
theorem writes_confined (src : Option Content) (out : RunOut)
    (hok : generate_favicons src = Except.ok out) :
    ∀ w ∈ out.writes, w.1 ∈ outputPaths ∧ ∀ f : String, w.1 ≠ joinPath APP_DIR f := by
  intro w hw
  have hmem : w.1 ∈ outputPaths := by
    match src with
    | none =>
        obtain rfl : _ = out := Except.ok.inj hok
        exact absurd hw (List.not_mem_nil w)
    | some (Content.text s) => exact Except.noConfusion hok
    | some (Content.png i) =>
        obtain rfl : successOut i = out := Except.ok.inj hok
        have h := List.mem_map_of_mem Prod.fst hw
        rw [show (successOut i).writes = successWrites i from rfl, successWrites_paths] at h
        exact h
    | some (Content.ico i) =>
        obtain rfl : successOut i = out := Except.ok.inj hok
        have h := List.mem_map_of_mem Prod.fst hw
        rw [show (successOut i).writes = successWrites i from rfl, successWrites_paths] at h
        exact h
  refine ⟨hmem, ?_⟩
  intro f
  simp only [outputPaths, List.mem_cons, List.not_mem_nil, or_false] at hmem
  rcases hmem with h | h | h | h | h | h | h <;> rw [h] <;> exact pub_ne_app _ f

/-- Witness for C10 at the manifest write of a concrete run. -/
theorem writes_confined_witness :
    (pubPath "site.webmanifest", Content.text manifest_content).1 ∈ outputPaths ∧
      ∀ f : String,
        (pubPath "site.webmanifest", Content.text manifest_content).1 ≠
          joinPath APP_DIR f :=
  writes_confined (some (Content.png testImg)) (successOut testImg)
    (generate_favicons_png_ok testImg)
    (pubPath "site.webmanifest", Content.text manifest_content)
    (List.mem_append_right _
      (List.mem_cons_of_mem _ (List.mem_cons_self _ _)))

end FaviconGen
